import Mathlib

/-!
Verification of the prompt-assembly engine of `agent/prompt_manager.py`
(with its backing content module `agent/system_prompt.py`), shallowly
embedded in Lean.  The catalog is modelled as an association list from
section key to section text; Python truthiness tests (`if xs:` on lists,
dicts and strings) are translated exactly (empty containers and the
empty string are falsy).
-/

/-- A section catalog: mapping from section key to section text
(`PromptManager.prompt_sections`, a Python dict with unique keys). -/
abbrev Catalog := List (String × String)

/-- Dict lookup `cat[k]` / `k in cat`. -/
def lookupSection (cat : Catalog) (k : String) : Option String :=
  List.lookup k cat

/-- The nine constant names that `_load_prompt_sections` imports from the
`system_prompt` module. -/
def requiredConstants : List String :=
  ["CORE_IDENTITY", "LANGUAGE_RULES", "STARTUP_INSTRUCTIONS",
   "MID_CONVERSATION_RULES", "TOOL_USAGE_GUIDELINES", "CLOSING_INSTRUCTIONS",
   "FAQ_AND_INFO", "CONVERSATION_FLOW", "TONE_AND_STYLE"]

/-- The nine section keys of the catalog built by `_load_prompt_sections`. -/
def sectionKeys : List String :=
  ["core_identity", "language_rules", "startup_instructions",
   "mid_conversation", "tool_usage", "closing",
   "faq_info", "conversation_flow", "tone_style"]

/-- `PromptManager._load_prompt_sections`: a `from system_prompt import (...)`
of the nine constants followed by the dict literal.  The backing module is
modelled as a partial map from constant name to string value; a missing name
makes the Python import raise `ImportError`, modelled as `Except.error`.
Names are resolved in source order, as CPython binds them. -/
def load_prompt_sections (src : String → Option String) : Except String Catalog :=
  match src "CORE_IDENTITY" with
  | none => .error "ImportError: cannot import name CORE_IDENTITY"
  | some ci =>
  match src "LANGUAGE_RULES" with
  | none => .error "ImportError: cannot import name LANGUAGE_RULES"
  | some lr =>
  match src "STARTUP_INSTRUCTIONS" with
  | none => .error "ImportError: cannot import name STARTUP_INSTRUCTIONS"
  | some si =>
  match src "MID_CONVERSATION_RULES" with
  | none => .error "ImportError: cannot import name MID_CONVERSATION_RULES"
  | some mc =>
  match src "TOOL_USAGE_GUIDELINES" with
  | none => .error "ImportError: cannot import name TOOL_USAGE_GUIDELINES"
  | some tu =>
  match src "CLOSING_INSTRUCTIONS" with
  | none => .error "ImportError: cannot import name CLOSING_INSTRUCTIONS"
  | some cl =>
  match src "FAQ_AND_INFO" with
  | none => .error "ImportError: cannot import name FAQ_AND_INFO"
  | some fi =>
  match src "CONVERSATION_FLOW" with
  | none => .error "ImportError: cannot import name CONVERSATION_FLOW"
  | some cf =>
  match src "TONE_AND_STYLE" with
  | none => .error "ImportError: cannot import name TONE_AND_STYLE"
  | some ts =>
  .ok [("core_identity", ci), ("language_rules", lr),
       ("startup_instructions", si), ("mid_conversation", mc),
       ("tool_usage", tu), ("closing", cl), ("faq_info", fi),
       ("conversation_flow", cf), ("tone_style", ts)]

/-- The stage-specific keys appended by `get_system_prompt`'s `if`/`elif`
chain (each Python branch tests `stage == Enum.value or stage == "literal"`
with both operands the same string, so one comparison suffices). -/
def stageSections (stage : String) : List String :=
  if stage = "startup" then
    ["startup_instructions", "conversation_flow", "tone_style", "tool_usage"]
  else if stage = "mid_conversation" then
    ["mid_conversation", "tone_style", "tool_usage"]
  else if stage = "closing" then
    ["closing", "tone_style"]
  else if stage = "active" then
    ["mid_conversation", "tone_style", "tool_usage"]
  else []

/-- The `sections_to_include` list of `get_system_prompt` after the
include-override (`if include_sections:` — truthy only for a non-empty
list) and the exclude filter (`if exclude_sections:`, then a list
comprehension dropping members of `exclude_sections`). -/
def workingList (stage : String) (include_sections exclude_sections : Option (List String)) :
    List String :=
  let base := ["core_identity", "language_rules"] ++ stageSections stage
  let afterInclude :=
    match include_sections with
    | some l => if l.isEmpty then base else l
    | none => base
  match exclude_sections with
  | some e => if e.isEmpty then afterInclude else
      afterInclude.filter (fun s => decide (s ∉ e))
  | none => afterInclude

/-- Python's notion of whitespace for `str.strip()` (ASCII part). -/
def isPySpace (c : Char) : Bool :=
  c = ' ' || c = '\t' || c = '\n' || c = '\r' || c = '\x0b' || c = '\x0c'

/-- Python `str.strip()`: drop leading and trailing whitespace. -/
def pyStrip (s : String) : String :=
  ⟨((s.data.dropWhile isPySpace).reverse.dropWhile isPySpace).reverse⟩

/-- The `prompt_parts` contributed by the catalog sections: the loop body
appends `prompt_sections[name]` when the key is present and its text strips
to non-empty (`if section_content.strip():`). -/
def sectionParts (cat : Catalog) (keys : List String) : List String :=
  keys.filterMap (fun k =>
    match lookupSection cat k with
    | some content => if pyStrip content = "" then none else some content
    | none => none)

/-- The warnings logged by the loop of `get_system_prompt`: one
`logger.warning` per selected key absent from the catalog. -/
def sectionWarnings (cat : Catalog) (keys : List String) : List String :=
  keys.filterMap (fun k =>
    match lookupSection cat k with
    | some _ => none
    | none => some ("Unknown prompt section: " ++ k))

/-- `datetime_info.get(field, 'N/A')`: dict access with placeholder
default. -/
def dtGet (d : List (String × String)) (k : String) : String :=
  (List.lookup k d).getD "N/A"

/-- `PromptManager._format_datetime_context`: the f-string template,
including its leading and trailing newline. -/
def format_datetime_context (d : List (String × String)) : String :=
  "\n## CURRENT DATE AND TIME INFORMATION\n\n**IMPORTANT: Use this information when answering questions about dates/times.**\n\n- **Current Date**: "
    ++ dtGet d "readable_date" ++ " (" ++ dtGet d "day_of_week"
    ++ ")\n- **Current Date (YYYY-MM-DD format)**: " ++ dtGet d "current_date"
    ++ "\n- **Current Time**: " ++ dtGet d "current_time" ++ " (" ++ dtGet d "timezone"
    ++ ")\n- **Tomorrow's Date**: " ++ dtGet d "tomorrow_readable" ++ " (" ++ dtGet d "tomorrow_day"
    ++ ")\n- **Tomorrow's Date (YYYY-MM-DD format)**: " ++ dtGet d "tomorrow_date"
    ++ "\n- Current timezone is " ++ dtGet d "timezone" ++ "\n"

/-- The datetime block appended by `if datetime_info:` (a `None` or empty
dict is falsy and contributes nothing). -/
def datetimeParts (datetime_info : Option (List (String × String))) : List String :=
  match datetime_info with
  | some d => if d.isEmpty then [] else [format_datetime_context d]
  | none => []

/-- The guardrails block appended by `if guardrails_context:` (only the
empty string is falsy; no trimming is applied). -/
def guardrailParts (guardrails_context : String) : List String :=
  if guardrails_context = "" then [] else [guardrails_context]

/-- The full `prompt_parts` list of `get_system_prompt`, in append order:
catalog sections, then the datetime block, then the guardrails block. -/
def promptParts (cat : Catalog) (stage : String)
    (datetime_info : Option (List (String × String)))
    (guardrails_context : String)
    (include_sections exclude_sections : Option (List String)) : List String :=
  sectionParts cat (workingList stage include_sections exclude_sections)
    ++ datetimeParts datetime_info ++ guardrailParts guardrails_context

/-- `PromptManager.get_system_prompt`: `"\n\n".join(prompt_parts)`. -/
def get_system_prompt (cat : Catalog) (stage : String)
    (datetime_info : Option (List (String × String)))
    (guardrails_context : String)
    (include_sections exclude_sections : Option (List String)) : String :=
  String.intercalate "\n\n"
    (promptParts cat stage datetime_info guardrails_context
      include_sections exclude_sections)

/-- `PromptManager.get_compact_prompt`: its own inline loop over the fixed
list `compact_sections`, with the same present-key and non-empty-strip
tests, joined by `"\n\n"`.  The `context` argument is accepted and never
read. -/
def get_compact_prompt (cat : Catalog)
    (_context : Option (List (String × String))) : String :=
  let compact_sections := ["core_identity", "language_rules", "mid_conversation"]
  let prompt_parts := compact_sections.filterMap (fun k =>
    match lookupSection cat k with
    | some content => if pyStrip content = "" then none else some content
    | none => none)
  String.intercalate "\n\n" prompt_parts

/-- The duck-typed LLM-service client probed by
`update_system_instruction`.  `hasSysInstrAttrib` and `hasUpdateMethod`
model the two `hasattr` probes; `setRaises` / `updateRaises` model whether
the attribute assignment (a property setter may throw) or the update
method throws; `lastUpdateArg` records the argument of a successful
`update_system_instruction(new_prompt)` call. -/
structure LLMService where
  hasSysInstrAttrib : Bool
  hasUpdateMethod : Bool
  system_instruction : String
  setRaises : Bool
  updateRaises : Bool
  lastUpdateArg : Option String
deriving Repr, DecidableEq

/-- `PromptManager.update_system_instruction`: assemble the prompt, probe
`hasattr(svc, 'system_instruction')` then
`hasattr(svc, 'update_system_instruction')`; the whole body sits in a
`try`/`except` that converts any exception into `False` (the client is
left as it was). Returns the boolean result together with the resulting
client state. -/
def update_system_instruction (cat : Catalog) (svc : LLMService)
    (stage : String) (datetime_info : Option (List (String × String)))
    (guardrails_context : String) : Bool × LLMService :=
  let new_prompt := get_system_prompt cat stage datetime_info guardrails_context none none
  if svc.hasSysInstrAttrib then
    if svc.setRaises then (false, svc)
    else (true, { svc with system_instruction := new_prompt })
  else if svc.hasUpdateMethod then
    if svc.updateRaises then (false, svc)
    else (true, { svc with lastUpdateArg := some new_prompt })
  else (false, svc)

/-- A small concrete catalog used for witnesses and counterexamples (the
real section texts are opaque data, out of scope of the claims). -/
def testCatalog : Catalog :=
  [("core_identity", "CI"), ("language_rules", "LR"),
   ("startup_instructions", "SI"), ("mid_conversation", "MC"),
   ("tool_usage", "TU"), ("closing", "CL"), ("faq_info", "FI"),
   ("conversation_flow", "CF"), ("tone_style", "TS")]

/-- Shared helper: the exclude filter of `get_system_prompt` is exactly a
`filter` of the unexcluded working list. -/
lemma workingList_some_exclude (stage : String) (inc : Option (List String))
    (e : List String) :
    workingList stage inc (some e) =
      (workingList stage inc none).filter (fun s => decide (s ∉ e)) := by
  cases e with
  | nil => simp [workingList]
  | cons a as => simp [workingList]

/-- Shared helper: keys absent from the catalog contribute nothing to the
assembled parts. -/
lemma sectionParts_skip_missing (cat : Catalog) (keys : List String) :
    sectionParts cat keys =
      sectionParts cat (keys.filter (fun j => (lookupSection cat j).isSome)) := by
  induction keys with
  | nil => rfl
  | cons k ks ih =>
    cases h : lookupSection cat k with
    | none => simp [sectionParts, List.filterMap_cons, List.filter_cons, h] at ih ⊢; exact ih
    | some c =>
      simp only [sectionParts, List.filterMap_cons, List.filter_cons, h,
        Option.isSome_some, if_true] at ih ⊢
      split <;> simp [ih]

/-- Shared helper: the parts list is the resolved texts filtered by the
non-empty-strip test. -/
lemma sectionParts_eq_filter (cat : Catalog) (keys : List String) :
    sectionParts cat keys =
      (keys.filterMap (fun k => lookupSection cat k)).filter
        (fun t => decide (pyStrip t ≠ "")) := by
  induction keys with
  | nil => rfl
  | cons k ks ih =>
    cases h : lookupSection cat k with
    | none => simp [sectionParts, List.filterMap_cons, h] at ih ⊢; exact ih
    | some c =>
      simp only [sectionParts, List.filterMap_cons, h] at ih ⊢
      by_cases hc : pyStrip c = "" <;> simp [hc, List.filter_cons, ih]

/-- Shared helper: a successful catalog load found every required constant
in the backing module, and the resulting mapping has exactly the nine
section keys. -/
lemma load_ok_all_found (src : String → Option String) (c : Catalog)
    (h : load_prompt_sections src = .ok c) :
    (∀ n ∈ requiredConstants, (src n).isSome = true) ∧
      c.map Prod.fst = sectionKeys := by
  unfold load_prompt_sections at h
  cases h1 : src "CORE_IDENTITY" with
  | none => rw [h1] at h; simp at h
  | some ci =>
  rw [h1] at h
  cases h2 : src "LANGUAGE_RULES" with
  | none => rw [h2] at h; simp at h
  | some lr =>
  rw [h2] at h
  cases h3 : src "STARTUP_INSTRUCTIONS" with
  | none => rw [h3] at h; simp at h
  | some si =>
  rw [h3] at h
  cases h4 : src "MID_CONVERSATION_RULES" with
  | none => rw [h4] at h; simp at h
  | some mc =>
  rw [h4] at h
  cases h5 : src "TOOL_USAGE_GUIDELINES" with
  | none => rw [h5] at h; simp at h
  | some tu =>
  rw [h5] at h
  cases h6 : src "CLOSING_INSTRUCTIONS" with
  | none => rw [h6] at h; simp at h
  | some cl =>
  rw [h6] at h
  cases h7 : src "FAQ_AND_INFO" with
  | none => rw [h7] at h; simp at h
  | some fi =>
  rw [h7] at h
  cases h8 : src "CONVERSATION_FLOW" with
  | none => rw [h8] at h; simp at h
  | some cf =>
  rw [h8] at h
  cases h9 : src "TONE_AND_STYLE" with
  | none => rw [h9] at h; simp at h
  | some ts =>
  rw [h9] at h
  have hc : c = [("core_identity", ci), ("language_rules", lr),
      ("startup_instructions", si), ("mid_conversation", mc),
      ("tool_usage", tu), ("closing", cl), ("faq_info", fi),
      ("conversation_flow", cf), ("tone_style", ts)] := by
    cases h; rfl
  subst hc
  refine ⟨?_, by simp [sectionKeys]⟩
  intro n hn
  fin_cases hn <;> simp [h1, h2, h3, h4, h5, h6, h7, h8, h9]

/-- Claim C1, counterexample: with an explicitly supplied empty
`include_sections` list (and no datetime/guardrails context), the claim
predicts an output with zero section blocks, i.e. the empty string; the
code treats the empty list as falsy, keeps the stage-derived working list,
and produces the full startup prompt. -/
theorem c1_counterexample :
    get_system_prompt testCatalog "startup" none "" (some []) none =
      "CI\n\nLR\n\nSI\n\nCF\n\nTS\n\nTU" ∧
    get_system_prompt testCatalog "startup" none "" (some []) none ≠ "" := by
  constructor <;> decide

/-- Claim C1, amended: an explicitly supplied empty `include_sections`
list is falsy and therefore ignored — the stage-derived working list (and
the whole prompt) is exactly as if `include_sections` had not been
supplied; only a non-empty `include_sections` list replaces the entire
working list, verbatim, without re-adding the always-included keys. -/
theorem c1_include_override :
    (∀ (stage : String) (exc : Option (List String)),
      workingList stage (some []) exc = workingList stage none exc) ∧
    (∀ (cat : Catalog) (stage : String)
      (dt : Option (List (String × String))) (gc : String)
      (exc : Option (List String)),
      get_system_prompt cat stage dt gc (some []) exc =
        get_system_prompt cat stage dt gc none exc) ∧
    (∀ (stage : String) (l : List String), l ≠ [] →
      workingList stage (some l) none = l) := by
  refine ⟨fun stage exc => rfl, fun cat stage dt gc exc => rfl, ?_⟩
  intro stage l hl
  have he : l.isEmpty = false := by simp [hl]
  simp [workingList, he]

/-- Claim C1, witness for the amended theorem at a concrete non-empty
override list. -/
theorem c1_witness :
    workingList "closing" (some ["tone_style"]) none = ["tone_style"] :=
  c1_include_override.2.2 "closing" ["tone_style"] (by decide)

/-- Claim C2: loading the catalog from a backing module that is missing
any of the nine required constants fails loudly (the import raises), and
a successful load yields a mapping whose keys are exactly the nine
enumerated section keys, in catalog order. -/
theorem c2_load_contract :
    ∀ src : String → Option String,
      ((∃ n ∈ requiredConstants, src n = none) →
        ∃ e, load_prompt_sections src = .error e) ∧
      (∀ c, load_prompt_sections src = .ok c →
        c.map Prod.fst = sectionKeys) := by
  intro src
  constructor
  · rintro ⟨n, hn, hnone⟩
    cases he : load_prompt_sections src with
    | error e => exact ⟨e, rfl⟩
    | ok c =>
      exfalso
      have := (load_ok_all_found src c he).1 n hn
      rw [hnone] at this
      simp at this
  · intro c h
    exact (load_ok_all_found src c h).2

/-- Claim C2, witness: a module with no definitions makes the load fail;
a module defining every constant loads a catalog with exactly the nine
section keys. -/
theorem c2_witness :
    (∃ e, load_prompt_sections (fun _ => none) = .error e) ∧
    List.map Prod.fst [("core_identity", "x"), ("language_rules", "x"),
      ("startup_instructions", "x"), ("mid_conversation", "x"),
      ("tool_usage", "x"), ("closing", "x"), ("faq_info", "x"),
      ("conversation_flow", "x"), ("tone_style", "x")] = sectionKeys :=
  ⟨(c2_load_contract (fun _ => none)).1 ⟨"CORE_IDENTITY", by decide, rfl⟩,
   (c2_load_contract (fun _ => some "x")).2 _ rfl⟩

/-- Claim C3, counterexample: a whitespace-only `guardrails_context` is
empty after trimming, so the claim says it contributes no block; the code
tests Python truthiness (`if guardrails_context:`), for which a single
space is truthy, and appends it as a final block. -/
theorem c3_counterexample :
    pyStrip " " = "" ∧
    get_system_prompt testCatalog "nostage" none " " none none =
      "CI\n\nLR\n\n " ∧
    get_system_prompt testCatalog "nostage" none " " none none ≠
      "CI\n\nLR" := by
  refine ⟨by decide, by decide, by decide⟩

/-- Claim C3, amended: the `guardrails_context` string is appended
verbatim as the final block if and only if it is a non-empty string; no
trimming is applied, so a whitespace-only `guardrails_context` IS
appended as a block. -/
theorem c3_guardrails_iff_nonempty :
    ∀ (cat : Catalog) (stage : String)
      (dt : Option (List (String × String))) (gc : String)
      (inc exc : Option (List String)),
      promptParts cat stage dt gc inc exc =
        promptParts cat stage dt "" inc exc ++
          (if gc = "" then [] else [gc]) := by
  intro cat stage dt gc inc exc
  by_cases h : gc = "" <;> simp [promptParts, guardrailParts, h]

/-- Claim C4, counterexample: `datetime_info` supplied as an empty record
is falsy under `if datetime_info:`, so the code appends no datetime block
at all — the output equals the one with no `datetime_info` — while the
claim predicts exactly one datetime block. -/
theorem c4_counterexample :
    get_system_prompt testCatalog "nostage" (some []) "" none none =
      get_system_prompt testCatalog "nostage" none "" none none ∧
    get_system_prompt testCatalog "nostage" (some []) "" none none =
      "CI\n\nLR" := by
  constructor <;> decide

/-- Claim C4, amended: when `datetime_info` is supplied and non-empty,
exactly one datetime block — the fixed template — is appended after the
section blocks and before any guardrails block, and each field missing
from `datetime_info` is rendered as the literal placeholder `N/A` rather
than causing a failure. -/
theorem c4_datetime_block :
    ∀ (cat : Catalog) (stage : String) (d : List (String × String))
      (gc : String) (inc exc : Option (List String)),
      (d ≠ [] →
        promptParts cat stage (some d) gc inc exc =
          sectionParts cat (workingList stage inc exc) ++
            format_datetime_context d :: guardrailParts gc) ∧
      (∀ k : String, List.lookup k d = none → dtGet d k = "N/A") := by
  intro cat stage d gc inc exc
  constructor
  · intro hd
    have he : d.isEmpty = false := by simp [hd]
    simp [promptParts, datetimeParts, he]
  · intro k hk
    simp [dtGet, hk]

/-- Claim C4, witness for the amended theorem: a one-field datetime
record yields exactly one template block between sections and guardrails,
and its missing fields read as `N/A`. -/
theorem c4_witness :
    promptParts testCatalog "nostage" (some [("timezone", "IST")]) "" none none =
      sectionParts testCatalog (workingList "nostage" none none) ++
        format_datetime_context [("timezone", "IST")] :: guardrailParts "" ∧
    dtGet [("timezone", "IST")] "current_date" = "N/A" :=
  ⟨(c4_datetime_block testCatalog "nostage" [("timezone", "IST")] "" none none).1
      (by decide),
   (c4_datetime_block testCatalog "nostage" [("timezone", "IST")] "" none none).2
      "current_date" (by decide)⟩

/-- Claim C5: without `include_sections`, the selected key list starts
with `core_identity` then `language_rules`, followed by the fixed
stage-specific keys — startup, mid_conversation/active, closing as per
the table — and any other stage string appends nothing (the function is
total, so no exception is raised). -/
theorem c5_stage_selection :
    workingList "startup" none none =
      ["core_identity", "language_rules", "startup_instructions",
       "conversation_flow", "tone_style", "tool_usage"] ∧
    workingList "mid_conversation" none none =
      ["core_identity", "language_rules", "mid_conversation",
       "tone_style", "tool_usage"] ∧
    workingList "active" none none =
      ["core_identity", "language_rules", "mid_conversation",
       "tone_style", "tool_usage"] ∧
    workingList "closing" none none =
      ["core_identity", "language_rules", "closing", "tone_style"] ∧
    ∀ stage : String, stage ≠ "startup" → stage ≠ "mid_conversation" →
      stage ≠ "closing" → stage ≠ "active" →
      workingList stage none none = ["core_identity", "language_rules"] := by
  refine ⟨by decide, by decide, by decide, by decide, ?_⟩
  intro stage h1 h2 h3 h4
  simp [workingList, stageSections, h1, h2, h3, h4]

/-- Claim C5, witness: an unknown stage string selects only the two
always-included keys. -/
theorem c5_witness :
    workingList "unknown_stage" none none =
      ["core_identity", "language_rules"] :=
  c5_stage_selection.2.2.2.2 "unknown_stage" (by decide) (by decide)
    (by decide) (by decide)

/-- Claim C6: every occurrence of every key listed in `exclude_sections`
is removed from the working list, regardless of whether it entered as an
always-included, stage-derived, or explicitly included key (the working
list with exclusions is exactly a filter of the working list without
them), so no block keyed by an excluded name can reach the output. -/
theorem c6_exclude_wins :
    (∀ (stage : String) (inc : Option (List String)) (e : List String)
      (k : String), k ∈ e → k ∉ workingList stage inc (some e)) ∧
    (∀ (stage : String) (inc : Option (List String)) (e : List String),
      workingList stage inc (some e) =
        (workingList stage inc none).filter (fun s => decide (s ∉ e))) := by
  refine ⟨?_, workingList_some_exclude⟩
  intro stage inc e k hk hmem
  rw [workingList_some_exclude] at hmem
  rcases List.mem_filter.mp hmem with ⟨-, hdec⟩
  simp at hdec
  exact hdec hk

/-- Claim C6, witness: excluding the always-included key `core_identity`
removes it from the startup working list. -/
theorem c6_witness :
    "core_identity" ∉ workingList "startup" none (some ["core_identity"]) :=
  c6_exclude_wins.1 "startup" none ["core_identity"] "core_identity"
    (by decide)

/-- Claim C7: a selected key absent from the catalog is skipped without
affecting the assembled parts (dropping all missing keys leaves the parts
unchanged), and each such key is recorded as a warning-level diagnostic;
assembly is a total function, so it never fails on bad content. -/
theorem c7_missing_keys_skipped :
    (∀ (cat : Catalog) (keys : List String),
      sectionParts cat keys =
        sectionParts cat
          (keys.filter (fun j => (lookupSection cat j).isSome))) ∧
    (∀ (cat : Catalog) (keys : List String) (k : String),
      k ∈ keys → lookupSection cat k = none →
      ("Unknown prompt section: " ++ k) ∈ sectionWarnings cat keys) := by
  refine ⟨sectionParts_skip_missing, ?_⟩
  intro cat keys k hk hnone
  unfold sectionWarnings
  exact List.mem_filterMap.mpr ⟨k, hk, by simp [hnone]⟩

/-- Claim C7, witness: a typo key contributes a warning and, being
missing, no block. -/
theorem c7_witness :
    ("Unknown prompt section: " ++ "typo") ∈
      sectionWarnings testCatalog ["core_identity", "typo"] :=
  c7_missing_keys_skipped.2 testCatalog ["core_identity", "typo"] "typo"
    (by decide) (by decide)

/-- Claim C8: a resolved section whose text strips to empty is absent
from the parts (the parts are exactly the resolved texts filtered by the
non-empty-strip test, so skipped sections leave no artifact), and the
output is the surviving blocks joined with exactly one blank-line
separator, in selection order. -/
theorem c8_empty_skipped_join :
    (∀ (cat : Catalog) (keys : List String),
      sectionParts cat keys =
        (keys.filterMap (fun k => lookupSection cat k)).filter
          (fun t => decide (pyStrip t ≠ ""))) ∧
    (∀ (cat : Catalog) (stage : String)
      (dt : Option (List (String × String))) (gc : String)
      (inc exc : Option (List String)),
      get_system_prompt cat stage dt gc inc exc =
        String.intercalate "\n\n"
          (sectionParts cat (workingList stage inc exc) ++
            datetimeParts dt ++ guardrailParts gc)) :=
  ⟨sectionParts_eq_filter, fun _ _ _ _ _ _ => rfl⟩

/-- Claim C9: the compact prompt ignores its `context` argument entirely
and always equals the core_identity, language_rules, mid_conversation
section texts — resolved with the same empty-section-skipping rule as
`get_system_prompt` — joined with the same blank-line separator. -/
theorem c9_compact_independent :
    ∀ (cat : Catalog) (c1 c2 : Option (List (String × String))),
      get_compact_prompt cat c1 = get_compact_prompt cat c2 ∧
      get_compact_prompt cat c1 =
        String.intercalate "\n\n"
          (sectionParts cat
            ["core_identity", "language_rules", "mid_conversation"]) :=
  fun _ _ _ => ⟨rfl, rfl⟩

/-- Claim C10: the instruction updater probes capabilities in order — a
settable instruction field is assigned first and yields `true`; otherwise
an update method is invoked with the new prompt and yields `true`;
otherwise it yields `false` with the client untouched — and an exception
in the assignment or the update call is converted to `false` with the
client untouched, never propagated (the function is total and always
returns a definite boolean). -/
theorem c10_update_boundary :
    ∀ (cat : Catalog) (svc : LLMService) (stage : String)
      (dt : Option (List (String × String))) (gc : String),
      (svc.hasSysInstrAttrib = true → svc.setRaises = false →
        update_system_instruction cat svc stage dt gc =
          (true, { svc with
                   system_instruction := get_system_prompt cat stage dt gc none none })) ∧
      (svc.hasSysInstrAttrib = true → svc.setRaises = true →
        update_system_instruction cat svc stage dt gc = (false, svc)) ∧
      (svc.hasSysInstrAttrib = false → svc.hasUpdateMethod = true →
        svc.updateRaises = false →
        update_system_instruction cat svc stage dt gc =
          (true, { svc with
                   lastUpdateArg := some (get_system_prompt cat stage dt gc none none) })) ∧
      (svc.hasSysInstrAttrib = false → svc.hasUpdateMethod = true →
        svc.updateRaises = true →
        update_system_instruction cat svc stage dt gc = (false, svc)) ∧
      (svc.hasSysInstrAttrib = false → svc.hasUpdateMethod = false →
        update_system_instruction cat svc stage dt gc = (false, svc)) := by
  intro cat svc stage dt gc
  refine ⟨fun h1 h2 => ?_, fun h1 h2 => ?_, fun h1 h2 h3 => ?_,
    fun h1 h2 h3 => ?_, fun h1 h2 => ?_⟩ <;>
    simp [update_system_instruction, h1, h2, *]

/-- Claim C10, witness: a client exposing only the settable field ends up
holding the freshly assembled prompt, with result `true`. -/
theorem c10_witness :
    update_system_instruction testCatalog
      ⟨true, false, "old", false, false, none⟩ "startup" none "" =
      (true, ⟨true, false,
        get_system_prompt testCatalog "startup" none "" none none,
        false, false, none⟩) :=
  (c10_update_boundary testCatalog ⟨true, false, "old", false, false, none⟩
    "startup" none "").1 rfl rfl
